import Mathlib

/-!
Verification development for the company-settings client
(`src/settingsClient.ts`).  Each TypeScript function the claims touch is
embedded as an executable Lean definition over `String` / `List Char`,
faithful to the JavaScript semantics the code relies on (string `split`,
`Array.prototype.slice`, truthiness of optional numeric arguments, the
stateful `lastIndex` of a `g`-flagged `RegExp`, `String.prototype.trim`,
Node's base64 and UTF-8 decoding).  Theorems about the claims follow the
definitions.
-/

/-! ## JavaScript string primitives -/

/-- JS `value.split('\n')` on the character list: splits at every newline,
keeping empty pieces; the empty string yields `[[]]`. -/
def splitNlChars : List Char → List (List Char)
  | [] => [[]]
  | c :: cs =>
    if c = '\n' then [] :: splitNlChars cs
    else
      match splitNlChars cs with
      | [] => [[c]]
      | l :: ls => (c :: l) :: ls

/-- JS `value.split('\n')` on strings. -/
def splitLines (s : String) : List String :=
  (splitNlChars s.data).map String.mk

/-- Case-sensitive: does `needle` occur as a contiguous subsequence of the
character list? -/
def containsSeq (needle : List Char) : List Char → Bool
  | [] => decide (needle = [])
  | c :: rest => List.isPrefixOf needle (c :: rest) || containsSeq needle rest

/-- Case-sensitive substring test on strings. -/
def strContains (needle haystack : String) : Bool :=
  containsSeq needle.data haystack.data

/-- Case folding used by the `i` regex flag, modelled with `Char.toLower`. -/
def lowerEq (a b : Char) : Bool :=
  a.toLower == b.toLower

/-- Case-insensitive prefix test (first argument is the pattern). -/
def isPrefixCI : List Char → List Char → Bool
  | [], _ => true
  | _ :: _, [] => false
  | a :: as, b :: bs => lowerEq a b && isPrefixCI as bs

/-- Case-insensitive substring test: does `needle` occur in the list,
comparing characters case-insensitively? -/
def containsCI (needle : List Char) : List Char → Bool
  | [] => isPrefixCI needle []
  | c :: rest => isPrefixCI needle (c :: rest) || containsCI needle rest

/-! ## `Base64Utils` (src/settingsClient.ts lines 9-30)

`Base64Utils.decode` is `Buffer.from(encodedContent, 'base64')` followed by
`buffer.toString('utf-8')` inside a `try`/`catch` that returns `null`.  Node's
base64 decoder is forgiving: characters outside the base64 alphabet
(including `=` padding) are skipped, full groups of four sextets give three
bytes and a trailing group of three or two sextets gives two bytes or one
byte (a lone trailing sextet gives none).  Neither `Buffer.from` nor
`toString` throws on a string argument, so the `catch` branch is
unreachable; the `Option` result mirrors the `string | null` signature. -/

/-- Sextet value of a base64 alphabet character, `none` for any other
character (Node skips those). -/
def base64Val (c : Char) : Option Nat :=
  if 'A' ≤ c ∧ c ≤ 'Z' then some (c.toNat - 65)
  else if 'a' ≤ c ∧ c ≤ 'z' then some (c.toNat - 97 + 26)
  else if '0' ≤ c ∧ c ≤ '9' then some (c.toNat - 48 + 52)
  else if c = '+' then some 62
  else if c = '/' then some 63
  else none

/-- Recombine sextets into bytes: 4 sextets → 3 bytes, then a trailing
3 → 2, 2 → 1, 1 or 0 → none. -/
def sextetsToBytes : List Nat → List Nat
  | a :: b :: c :: d :: rest =>
      (a * 4 + b / 16) :: ((b % 16) * 16 + c / 4) :: ((c % 4) * 64 + d)
        :: sextetsToBytes rest
  | [a, b, c] => [a * 4 + b / 16, (b % 16) * 16 + c / 4]
  | [a, b] => [a * 4 + b / 16]
  | _ => []

/-- `Buffer.from(s, 'base64')` as a byte list. -/
def base64DecodeBytes (s : String) : List Nat :=
  sextetsToBytes (s.data.filterMap base64Val)

/-- The replacement character U+FFFD emitted for malformed UTF-8. -/
def replacementChar : Char := Char.ofNat 0xFFFD

/-- Is `b` a UTF-8 continuation byte in the closed range `[lo, hi]`? -/
def contIn (lo hi b : Nat) : Bool :=
  lo ≤ b && b ≤ hi

/-- WHATWG UTF-8 decoding with replacement characters, as
`buffer.toString('utf-8')` performs it.  The fuel is an upper bound on the
number of steps; every step consumes at least one byte, so fuel equal to the
byte count never runs out. -/
def utf8DecodeGo : Nat → List Nat → List Char
  | 0, _ => []
  | _ + 1, [] => []
  | fuel + 1, b :: rest =>
    if b < 0x80 then Char.ofNat b :: utf8DecodeGo fuel rest
    else if contIn 0xC2 0xDF b then
      match rest with
      | b2 :: rest2 =>
        if contIn 0x80 0xBF b2 then
          Char.ofNat ((b - 0xC0) * 64 + (b2 - 0x80)) :: utf8DecodeGo fuel rest2
        else replacementChar :: utf8DecodeGo fuel rest
      | [] => [replacementChar]
    else if contIn 0xE0 0xEF b then
      let lo2 := if b = 0xE0 then 0xA0 else 0x80
      let hi2 := if b = 0xED then 0x9F else 0xBF
      match rest with
      | b2 :: rest2 =>
        if contIn lo2 hi2 b2 then
          match rest2 with
          | b3 :: rest3 =>
            if contIn 0x80 0xBF b3 then
              Char.ofNat ((b - 0xE0) * 4096 + (b2 - 0x80) * 64 + (b3 - 0x80))
                :: utf8DecodeGo fuel rest3
            else replacementChar :: utf8DecodeGo fuel rest2
          | [] => [replacementChar]
        else replacementChar :: utf8DecodeGo fuel rest
      | [] => [replacementChar]
    else if contIn 0xF0 0xF4 b then
      let lo2 := if b = 0xF0 then 0x90 else 0x80
      let hi2 := if b = 0xF4 then 0x8F else 0xBF
      match rest with
      | b2 :: rest2 =>
        if contIn lo2 hi2 b2 then
          match rest2 with
          | b3 :: rest3 =>
            if contIn 0x80 0xBF b3 then
              match rest3 with
              | b4 :: rest4 =>
                if contIn 0x80 0xBF b4 then
                  Char.ofNat ((b - 0xF0) * 262144 + (b2 - 0x80) * 4096
                      + (b3 - 0x80) * 64 + (b4 - 0x80))
                    :: utf8DecodeGo fuel rest4
                else replacementChar :: utf8DecodeGo fuel rest3
              | [] => [replacementChar]
            else replacementChar :: utf8DecodeGo fuel rest2
          | [] => [replacementChar]
        else replacementChar :: utf8DecodeGo fuel rest
      | [] => [replacementChar]
    else replacementChar :: utf8DecodeGo fuel rest

/-- `buffer.toString('utf-8')`. -/
def utf8Decode (bytes : List Nat) : String :=
  String.mk (utf8DecodeGo bytes.length bytes)

/-- `Base64Utils.decode` (src/settingsClient.ts lines 14-21). -/
def Base64Utils.decode (encodedContent : String) : Option String :=
  some (utf8Decode (base64DecodeBytes encodedContent))

/-! ## The `Setting` data model (src/types.ts) -/

inductive SettingType where
  | APPLICATION
  | COMPANY
  | SCHEDULING_UNIT
  | USER
deriving DecidableEq, Repr

structure Setting where
  setting_uuid : String
  type : SettingType
  key : String
  value : String
  encoded : Bool
  encrypted : Bool
  owner : Int
  revision : Int
  deleted : Bool
  created : String
  modified : String
deriving DecidableEq, Repr

/-! ## The value codec (src/settingsClient.ts lines 259-273) -/

/-- Lines 264-272 of `decodeSetting`: what is returned once
`Base64Utils.decode(setting.value)` has produced its `string | null`. -/
def decodeSettingCore (setting : Setting) : Option String → Setting
  | some decodedValue => { setting with value := decodedValue }
  | none => setting

/-- `CompanySettingsClient.decodeSetting`. -/
def decodeSetting (setting : Setting) : Setting :=
  if !setting.encoded || setting.encrypted then setting
  else decodeSettingCore setting (Base64Utils.decode setting.value)

/-! ## The request executor (src/settingsClient.ts lines 105-199)

`makeRequest` issues up to `maxAttempts = 3` sequential `axios.get` calls.
With `validateStatus: null` axios resolves for every HTTP status, so one
attempt ends in exactly one of three ways, modelled by `AttemptOutcome`:
an HTTP response (any status, with its body text), an axios error (network
failure, optionally carrying an embedded status and body), or a non-axios
exception.  The environment of attempt outcomes is an input `Nat →
AttemptOutcome` giving attempt `i`'s outcome (0-based).  `makeRequest`
returns the `RequestResult` together with the number of attempts consumed.
The backoff delays between attempts have no observable effect on the
result and are not modelled. -/

inductive AttemptOutcome where
  | response (status : Nat) (body : String)
  | axiosError (status : Option Nat) (message : String) (data : Option String)
  | otherError (message : String)
deriving DecidableEq, Repr

structure RequestResult where
  success : Bool
  response : Option String := none
  error : Option String := none
  status_code : Option Nat := none
  response_text : Option String := none
  environment : Option String := none
  base_url : Option String := none
  token_preview : Option String := none
deriving DecidableEq, Repr

/-- `selectedToken?.substring(0, 10) + '...'`. -/
def tokenPreview (token : String) : String :=
  token.take 10 ++ "..."

/-- The error message for a non-200 HTTP response (lines 144-148). -/
def httpStatusErrorMessage (status : Nat) (environment : String) : String :=
  if status = 403 then
    "API returned status " ++ toString status ++ " (Forbidden) for environment '"
      ++ environment
      ++ "'. This usually indicates an invalid or expired token for this environment."
  else if status = 401 then
    "API returned status " ++ toString status ++ " (Unauthorized) for environment '"
      ++ environment ++ "'. Please check your token for this environment."
  else
    "API returned status " ++ toString status

/-- The error message for an axios error (lines 166-170). -/
def axiosErrorMessage (status : Option Nat) (environment message : String) : String :=
  match status with
  | some 403 =>
    "Request failed with status 403 (Forbidden) for environment '" ++ environment
      ++ "'. This usually indicates an invalid or expired token for this environment: "
      ++ message
  | some 401 =>
    "Request failed with status 401 (Unauthorized) for environment '" ++ environment
      ++ "'. Please check your token for this environment: " ++ message
  | some s => "Request failed with status " ++ toString s ++ ": " ++ message
  | none => "Request failed: " ++ message

/-- The `lastError` captured for a failed attempt (lines 150-159, 172-180,
182-188).  Never applied to a 200 response by `attemptStep`. -/
def captureFailure (token environment baseUrl : String) :
    AttemptOutcome → RequestResult
  | AttemptOutcome.response status body =>
    { success := false
      error := some (httpStatusErrorMessage status environment)
      status_code := some status
      response_text := some body
      environment := some environment
      base_url := some baseUrl
      token_preview := some (tokenPreview token) }
  | AttemptOutcome.axiosError status message data =>
    { success := false
      error := some (axiosErrorMessage status environment message)
      status_code := status
      response_text := data
      environment := some environment
      base_url := some baseUrl
      token_preview := some (tokenPreview token) }
  | AttemptOutcome.otherError message =>
    { success := false
      error := some ("Unexpected error for environment '" ++ environment
        ++ "': " ++ message)
      environment := some environment
      base_url := some baseUrl
      token_preview := some (tokenPreview token) }

/-- One attempt of the loop body: a 200 response returns the success result
(lines 140-141), anything else the captured failure. -/
def attemptStep (token environment baseUrl : String) (o : AttemptOutcome) :
    RequestResult :=
  match o with
  | AttemptOutcome.response status body =>
    if status = 200 then
      { success := true, response := some body, status_code := some status }
    else captureFailure token environment baseUrl (AttemptOutcome.response status body)
  | o => captureFailure token environment baseUrl o

/-- Does the attempt's outcome carry HTTP status exactly 200? -/
def isHttp200 : AttemptOutcome → Bool
  | AttemptOutcome.response status _ => status == 200
  | _ => false

/-- The retry loop (lines 125-196): `idx` is the 0-based attempt index,
`remaining` the attempts left of the budget of 3; on exhaustion line 198
returns `lastError` or the `'Unknown error'` result. -/
def makeRequestAux (token environment baseUrl : String)
    (outcomes : Nat → AttemptOutcome) :
    Nat → Nat → Option RequestResult → RequestResult × Nat
  | idx, 0, lastError =>
    (lastError.getD { success := false, error := some "Unknown error" }, idx)
  | idx, remaining + 1, _ =>
    let r := attemptStep token environment baseUrl (outcomes idx)
    if r.success then (r, idx + 1)
    else makeRequestAux token environment baseUrl outcomes (idx + 1) remaining (some r)

/-- `CompanySettingsClient.makeRequest`: at most `maxAttempts = 3` attempts. -/
def makeRequest (token environment baseUrl : String)
    (outcomes : Nat → AttemptOutcome) : RequestResult × Nat :=
  makeRequestAux token environment baseUrl outcomes 0 3 none

/-- The diagnostic log lines emitted before the loop (lines 119-123); the
parameters object is rendered as an opaque string. -/
def makeRequestLogs (token environment baseUrl url paramsText : String) :
    List String :=
  [ "[DEBUG] Making request for environment: " ++ environment
  , "[DEBUG] Selected base URL: " ++ baseUrl
  , "[DEBUG] Selected token (first 10 chars): " ++ token.take 10 ++ "..."
  , "[DEBUG] Full URL: " ++ url
  , "[DEBUG] Request params: " ++ paramsText ]

/-! ## The pagination engine (src/settingsClient.ts lines 306-324)

The optional JS number parameters `limit` and `offset` are modelled as
`Option Nat`; JS truthiness of such a value (`!limit`, `limit ? _ : _`,
`offset || 0`) holds exactly when the value is present and non-zero. -/

structure PaginationResult where
  lines : List String
  totalLines : Nat
  hasMore : Bool
deriving DecidableEq, Repr

/-- JS truthiness of an optional number (`undefined` and `0` are falsy). -/
def jsTruthy : Option Nat → Bool
  | none => false
  | some v => v != 0

/-- `Array.prototype.slice(start, end)` for non-negative indices. -/
def jsSlice (l : List String) (startIndex endIndex : Nat) : List String :=
  (l.drop startIndex).take (endIndex - startIndex)

/-- `CompanySettingsClient.paginateSettingValue`. -/
def paginateSettingValue (value : String) (limit offset : Option Nat) :
    PaginationResult :=
  let lines := splitLines value
  let totalLines := lines.length
  if !jsTruthy limit && !jsTruthy offset then
    { lines := lines, totalLines := totalLines, hasMore := false }
  else
    let startIndex := if jsTruthy offset then offset.getD 0 else 0
    let endIndex := if jsTruthy limit then startIndex + limit.getD 0 else lines.length
    { lines := jsSlice lines startIndex endIndex
      totalLines := totalLines
      hasMore := decide (endIndex < totalLines) }

/-- Modelled from the spec's words, for comparison with
`paginateSettingValue`: "If neither `limit` nor `offset` is supplied: return
all lines, `hasMore=false`.  Else: `start = offset ?? 0`; `end = limit ?
start+limit : totalLines`; return the slice `[start, end)`; `hasMore = end <
totalLines`." -/
def specPaginate (value : String) (limit offset : Option Nat) :
    PaginationResult :=
  let lines := splitLines value
  let totalLines := lines.length
  if limit = none ∧ offset = none then
    { lines := lines, totalLines := totalLines, hasMore := false }
  else
    let start := offset.getD 0
    let stop := if jsTruthy limit then start + limit.getD 0 else totalLines
    { lines := jsSlice lines start stop
      totalLines := totalLines
      hasMore := decide (stop < totalLines) }

/-! ## The search engine (src/settingsClient.ts lines 326-355)

Line 330 builds `new RegExp(searchTerm.replace(/[.*+?^${}()|[\]\\]/g,
'\\$&'), 'gi')`: every regex metacharacter of the term is escaped, and the
flags are global and case-insensitive.  The pattern language is modelled by
`RegexTok` — enough of JS regex syntax to read any fully escaped pattern
(`\c` is the literal `c`) and to witness that an unescaped `.` would be a
wildcard.  Because the flag `g` is set, `searchRegex.test(line)` is
stateful: a successful test sets `lastIndex` to the end of the match and the
next test resumes from there; a failed test resets `lastIndex` to 0.  The
`forEach` over the lines threads that state from line to line. -/

/-- The metacharacters escaped by the `replace` on line 330. -/
def regexMetaChars : List Char :=
  ['.', '*', '+', '?', '^', '$', '\x7b', '\x7d', '(', ')', '|', '[', ']', '\\']

/-- `searchTerm.replace(/[.*+?^${}()|[\]\\]/g, '\\$&')`. -/
def escapeRegExp (s : List Char) : List Char :=
  s.flatMap (fun c => if c ∈ regexMetaChars then ['\\', c] else [c])

/-- A parsed pattern element: a literal character or the `.` wildcard. -/
inductive RegexTok where
  | lit (c : Char)
  | anyChar
deriving DecidableEq, Repr

/-- Read a pattern: a backslash escapes the next character to a literal, a
bare `.` is the wildcard, every other character is a literal.  This covers
every pattern the source builds (they are fully escaped). -/
def parsePattern : List Char → List RegexTok
  | [] => []
  | '\\' :: c :: rest => RegexTok.lit c :: parsePattern rest
  | c :: rest =>
    (if c = '.' then RegexTok.anyChar else RegexTok.lit c) :: parsePattern rest

/-- Does the token sequence match at the head of the text
(case-insensitively)?  Each token consumes exactly one character. -/
def matchToksAtCI : List RegexTok → List Char → Bool
  | [], _ => true
  | _ :: _, [] => false
  | RegexTok.lit a :: ts, b :: bs => lowerEq a b && matchToksAtCI ts bs
  | RegexTok.anyChar :: ts, _ :: bs => matchToksAtCI ts bs

/-- First match position at or after `pos`, scanning forward. -/
def findToksFromAux (toks : List RegexTok) : List Char → Nat → Option Nat
  | [], pos => if matchToksAtCI toks [] then some pos else none
  | c :: tl, pos =>
    if matchToksAtCI toks (c :: tl) then some pos else findToksFromAux toks tl (pos + 1)

/-- `RegExpBuiltinExec` for a `g` regex: fails when `lastIndex` exceeds the
text length, else scans forward from `lastIndex`. -/
def regexFindFromToks (toks : List RegexTok) (text : List Char)
    (lastIndex : Nat) : Option Nat :=
  if lastIndex ≤ text.length then findToksFromAux toks (text.drop lastIndex) lastIndex
  else none

/-- `searchRegex.test(text)` for a `gi` regex: returns the verdict and the
regex's `lastIndex` afterwards (end of the match on success, 0 on failure). -/
def regexTestG (toks : List RegexTok) (text : List Char) (lastIndex : Nat) :
    Bool × Nat :=
  match regexFindFromToks toks text lastIndex with
  | some i => (true, i + toks.length)
  | none => (false, 0)

/-- The compiled search pattern of line 330. -/
def searchTokens (searchTerm : String) : List RegexTok :=
  parsePattern (escapeRegExp searchTerm.data)

structure SearchMatch where
  lineNumber : Nat
  line : String
  context : List String
deriving DecidableEq, Repr

structure SearchResult where
  /-- The source's field `matches` (`matches` is a Lean keyword). -/
  matchList : List SearchMatch
  totalMatches : Nat
deriving DecidableEq, Repr

/-- The context block of lines 334-341 for the matched 0-based `index`.
`allLines` is never empty (`split` always yields at least one piece), so the
`Nat` form of `lines.length - 1` agrees with the JS arithmetic. -/
def buildContext (allLines : List String) (contextLines index : Nat) :
    List String :=
  let startContext := index - contextLines
  let endContext := min (allLines.length - 1) (index + contextLines)
  (List.range (endContext + 1 - startContext)).map (fun k =>
    let i := startContext + k
    (if i = index then ">>> " else "    ") ++ toString (i + 1) ++ ": "
      ++ allLines.getD i "")

/-- The `forEach` of lines 332-349, threading the regex's `lastIndex`. -/
def searchLoop (toks : List RegexTok) (allLines : List String)
    (contextLines : Nat) : List String → Nat → Nat → List SearchMatch
  | [], _, _ => []
  | line :: rest, index, lastIndex =>
    let t := regexTestG toks line.data lastIndex
    if t.1 then
      { lineNumber := index + 1
        line := line
        context := buildContext allLines contextLines index }
        :: searchLoop toks allLines contextLines rest (index + 1) t.2
    else searchLoop toks allLines contextLines rest (index + 1) t.2

/-- `CompanySettingsClient.searchInSettingValue`. -/
def searchInSettingValue (value searchTerm : String)
    (contextLines : Nat := 3) : SearchResult :=
  let lines := splitLines value
  let toks := searchTokens searchTerm
  let ms := searchLoop toks lines contextLines lines 0 0
  { matchList := ms, totalMatches := ms.length }

/-! ## Response-format detection (src/settingsClient.ts lines 201-223)

Only the string-input branch of `parseAPIResponse` is modelled: which parser
the text is handed to, and the error wrapping of line 255.  `trim()` is the
JS `String.prototype.trim`, whose whitespace set contains `﻿` (so a
UTF-8-style BOM is trimmed) but not `￾` or `￿`.  The two
`replace` calls of lines 214-215 strip BOM variants from the *original*
string, and only in the XML branch, after detection. -/

/-- The JS `WhiteSpace` / `LineTerminator` characters removed by `trim()`. -/
def jsWhitespaceChar (c : Char) : Bool :=
  c == ' ' || c == '\t' || c == '\n' || c == '\r'
    || c.toNat == 0x0B || c.toNat == 0x0C || c.toNat == 0xA0
    || c.toNat == 0xFEFF || c.toNat == 0x1680
    || (0x2000 ≤ c.toNat && c.toNat ≤ 0x200A)
    || c.toNat == 0x2028 || c.toNat == 0x2029
    || c.toNat == 0x202F || c.toNat == 0x205F || c.toNat == 0x3000

/-- `responseData.trim()`. -/
def jsTrimChars (cs : List Char) : List Char :=
  ((cs.dropWhile jsWhitespaceChar).reverse.dropWhile jsWhitespaceChar).reverse

/-- Lines 214-215: `replace(/^﻿/, '')` then
`replace(/^[﻿￾￿]/, '')`. -/
def stripXmlBom (cs : List Char) : List Char :=
  let cs1 :=
    match cs with
    | c :: rest => if c.toNat = 0xFEFF then rest else c :: rest
    | [] => []
  match cs1 with
  | c :: rest =>
    if c.toNat = 0xFEFF || c.toNat = 0xFFFE || c.toNat = 0xFFFF then rest
    else c :: rest
  | [] => []

/-- Which parser a string response is handed to: `json s` means
`JSON.parse(s)` on the original string, `xml s` means `parseXML(s)` on the
BOM-stripped original, `failure m` the wrapped error thrown to the caller. -/
inductive ParseOutcome where
  | json (text : String)
  | xml (cleanedText : String)
  | failure (message : String)
deriving DecidableEq, Repr

/-- The format-detection stage of `parseAPIResponse` (lines 206-220) with
the error wrapping of line 255. -/
def parseAPIResponseDetect (responseData : String) : ParseOutcome :=
  let trimmed := jsTrimChars responseData.data
  if List.isPrefixOf [ '\x7b' ] trimmed || List.isPrefixOf [ '[' ] trimmed then
    ParseOutcome.json responseData
  else if List.isPrefixOf "<?xml".data trimmed || List.isPrefixOf "<".data trimmed then
    ParseOutcome.xml (String.mk (stripXmlBom responseData.data))
  else
    ParseOutcome.failure ("Failed to parse API response: " ++ "Unknown response format")

/-! ## Concrete fixtures used by the theorems -/

def helloSetting : Setting :=
  { setting_uuid := "u1", type := SettingType.COMPANY, key := "k"
    value := "aGVsbG8=", encoded := true, encrypted := false
    owner := 5, revision := 2, deleted := false, created := "c", modified := "m" }

def tenLineValue : String := "l1\nl2\nl3\nl4\nl5\nl6\nl7\nl8\nl9\nl10"

def bomFFFEXml : String := String.mk (Char.ofNat 0xFFFE :: "<a/>".data)

def bomFEFFXml : String := String.mk (Char.ofNat 0xFEFF :: "<a/>".data)

def allForbiddenRun : RequestResult × Nat :=
  makeRequest "secrettoken123" "pd" "https://pd.example"
    (fun _ => AttemptOutcome.response 403 "denied")

/-! ## Helper lemmas about the request executor -/

lemma captureFailure_success (t e b : String) (o : AttemptOutcome) :
    (captureFailure t e b o).success = false := by
  cases o <;> rfl

lemma captureFailure_token_preview (t e b : String) (o : AttemptOutcome) :
    (captureFailure t e b o).token_preview = some (tokenPreview t) := by
  cases o <;> rfl

lemma attemptStep_success_eq (t e b : String) (o : AttemptOutcome) :
    (attemptStep t e b o).success = isHttp200 o := by
  cases o with
  | response s body =>
    by_cases h : s = 200 <;>
      simp [attemptStep, captureFailure, isHttp200, h]
  | axiosError st m d => rfl
  | otherError m => rfl

lemma attemptStep_not200 (t e b : String) (o : AttemptOutcome)
    (h : isHttp200 o = false) :
    attemptStep t e b o = captureFailure t e b o := by
  cases o with
  | response s body =>
    have hs : s ≠ 200 := by
      intro hs; subst hs; simp [isHttp200] at h
    simp [attemptStep, hs]
  | axiosError st m d => rfl
  | otherError m => rfl

lemma attemptStep_200 (t e b body : String) :
    attemptStep t e b (AttemptOutcome.response 200 body)
      = { success := true, response := some body, status_code := some 200 } := by
  simp [attemptStep]

lemma makeRequestAux_zero (t e b : String) (o : Nat → AttemptOutcome)
    (idx : Nat) (lastError : Option RequestResult) :
    makeRequestAux t e b o idx 0 lastError
      = (lastError.getD { success := false, error := some "Unknown error" }, idx) :=
  rfl

lemma makeRequestAux_succ (t e b : String) (o : Nat → AttemptOutcome)
    (idx n : Nat) (lastError : Option RequestResult) :
    makeRequestAux t e b o idx (n + 1) lastError
      = (if (attemptStep t e b (o idx)).success
          then (attemptStep t e b (o idx), idx + 1)
          else makeRequestAux t e b o (idx + 1) n (some (attemptStep t e b (o idx)))) :=
  rfl

/-- Closed form of the 3-attempt loop: the first 200 response wins, else the
last captured failure is returned after 3 attempts. -/
lemma makeRequest_eq (t e b : String) (o : Nat → AttemptOutcome) :
    makeRequest t e b o =
      if isHttp200 (o 0) then (attemptStep t e b (o 0), 1)
      else if isHttp200 (o 1) then (attemptStep t e b (o 1), 2)
      else if isHttp200 (o 2) then (attemptStep t e b (o 2), 3)
      else (captureFailure t e b (o 2), 3) := by
  show makeRequestAux t e b o 0 3 none = _
  rw [show (3 : Nat) = 2 + 1 from rfl, makeRequestAux_succ]
  rw [show (2 : Nat) = 1 + 1 from rfl, makeRequestAux_succ]
  rw [show (1 : Nat) = 0 + 1 from rfl, makeRequestAux_succ]
  rw [makeRequestAux_zero]
  cases h0 : isHttp200 (o 0) with
  | true => simp [attemptStep_success_eq, h0]
  | false =>
    cases h1 : isHttp200 (o 1) with
    | true => simp [attemptStep_success_eq, h0, h1]
    | false =>
      cases h2 : isHttp200 (o 2) with
      | true => simp [attemptStep_success_eq, h0, h1, h2]
      | false =>
        simp [attemptStep_success_eq, h0, h1, h2, attemptStep_not200 t e b (o 2) h2]

lemma captureFailure_take10_congr (t t2 e b : String)
    (h : t.take 10 = t2.take 10) (o : AttemptOutcome) :
    captureFailure t e b o = captureFailure t2 e b o := by
  cases o <;> simp [captureFailure, tokenPreview, h]

lemma attemptStep_take10_congr (t t2 e b : String)
    (h : t.take 10 = t2.take 10) (o : AttemptOutcome) :
    attemptStep t e b o = attemptStep t2 e b o := by
  cases o with
  | response s body =>
    by_cases hs : s = 200
    · simp [attemptStep, hs]
    · simp [attemptStep, hs, captureFailure_take10_congr t t2 e b h]
  | axiosError st m d =>
    simpa [attemptStep] using captureFailure_take10_congr t t2 e b h _
  | otherError m =>
    simpa [attemptStep] using captureFailure_take10_congr t t2 e b h _

/-! ## Claim theorems -/

/-- C1.  The request executor makes at most 3 attempts (and at least one);
its result is a total `RequestResult` discriminated by `success`, never an
exception, for every sequence of HTTP statuses; it succeeds exactly when one
of the first three outcomes is an HTTP-200 response; the first such attempt
ends the call immediately with the body and status and no further attempts;
when all three attempts fail it returns the last captured failure; and the
line-198 fallback for an exhausted loop with no captured failure is the
`"Unknown error"` result. -/
theorem makeRequest_retry_policy (t e b : String) (o : Nat → AttemptOutcome) :
    (1 ≤ (makeRequest t e b o).2 ∧ (makeRequest t e b o).2 ≤ 3)
    ∧ ((makeRequest t e b o).1.success = true ↔ ∃ k, k < 3 ∧ isHttp200 (o k) = true)
    ∧ (∀ k body, k < 3 → o k = AttemptOutcome.response 200 body →
        (∀ j, j < k → isHttp200 (o j) = false) →
        makeRequest t e b o
          = ({ success := true, response := some body, status_code := some 200 }, k + 1))
    ∧ ((∀ k, k < 3 → isHttp200 (o k) = false) →
        makeRequest t e b o = (captureFailure t e b (o 2), 3)
        ∧ (captureFailure t e b (o 2)).success = false)
    ∧ (∀ idx, makeRequestAux t e b o idx 0 none
        = ({ success := false, error := some "Unknown error" }, idx)) := by
  refine ⟨?_, ?_, ?_, ?_, fun idx => rfl⟩
  · rw [makeRequest_eq]
    split_ifs <;> simp
  · rw [makeRequest_eq]
    cases h0 : isHttp200 (o 0) with
    | true =>
      exact iff_of_true (by simp [h0, attemptStep_success_eq]) ⟨0, by omega, h0⟩
    | false =>
      cases h1 : isHttp200 (o 1) with
      | true =>
        exact iff_of_true (by simp [h0, h1, attemptStep_success_eq]) ⟨1, by omega, h1⟩
      | false =>
        cases h2 : isHttp200 (o 2) with
        | true =>
          exact iff_of_true (by simp [h0, h1, h2, attemptStep_success_eq])
            ⟨2, by omega, h2⟩
        | false =>
          refine iff_of_false (by simp [h0, h1, h2, captureFailure_success]) ?_
          rintro ⟨k, hk, hky⟩
          interval_cases k <;> simp_all
  · intro k body hk hko hj
    have hk200 : isHttp200 (o k) = true := by simp [hko, isHttp200]
    rw [makeRequest_eq]
    interval_cases k
    · rw [if_pos hk200, hko, attemptStep_200]
    · rw [if_neg (by simp [hj 0 (by omega)]), if_pos hk200, hko, attemptStep_200]
    · rw [if_neg (by simp [hj 0 (by omega)]), if_neg (by simp [hj 1 (by omega)]),
        if_pos hk200, hko, attemptStep_200]
  · intro hall
    rw [makeRequest_eq]
    rw [if_neg (by simp [hall 0 (by omega)]), if_neg (by simp [hall 1 (by omega)]),
      if_neg (by simp [hall 2 (by omega)])]
    exact ⟨rfl, captureFailure_success t e b (o 2)⟩

/-- C5.  Credential masking: every failure result of the executor carries
`token_preview = token.take 10 ++ "..."`; and the executor's result and its
log lines depend on the credential only through that masked 10-character
prefix — two tokens with the same first 10 characters produce identical
results and identical logs, so no result or log line can expose more of the
credential than the masked preview (the information-flow reading of "the
full credential never appears").  A concrete run shows the preview and that
the full token does not occur in it. -/
theorem makeRequest_masks_token (t t2 e b u p : String)
    (o : Nat → AttemptOutcome) :
    ((makeRequest t e b o).1.success = false →
      (makeRequest t e b o).1.token_preview = some (t.take 10 ++ "..."))
    ∧ (t.take 10 = t2.take 10 → makeRequest t e b o = makeRequest t2 e b o)
    ∧ (t.take 10 = t2.take 10 →
        makeRequestLogs t e b u p = makeRequestLogs t2 e b u p)
    ∧ allForbiddenRun.1.token_preview = some "secrettoke..."
    ∧ strContains "secrettoken123" "secrettoke..." = false := by
  refine ⟨?_, ?_, ?_, by decide, by decide⟩
  · intro hs
    rw [makeRequest_eq] at hs ⊢
    cases h0 : isHttp200 (o 0) with
    | true => rw [if_pos h0] at hs; simp [attemptStep_success_eq, h0] at hs
    | false =>
      cases h1 : isHttp200 (o 1) with
      | true =>
        rw [if_neg (by simp [h0]), if_pos h1] at hs
        simp [attemptStep_success_eq, h1] at hs
      | false =>
        cases h2 : isHttp200 (o 2) with
        | true =>
          rw [if_neg (by simp [h0]), if_neg (by simp [h1]), if_pos h2] at hs
          simp [attemptStep_success_eq, h2] at hs
        | false =>
          rw [if_neg (by simp [h0]), if_neg (by simp [h1]), if_neg (by simp [h2])]
          exact captureFailure_token_preview t e b (o 2)
  · intro h
    rw [makeRequest_eq, makeRequest_eq]
    simp only [attemptStep_take10_congr t t2 e b h,
      captureFailure_take10_congr t t2 e b h]
  · intro h
    simp [makeRequestLogs, h]

/-- C8 counterexample.  Three 403 responses: the captured failure's message
is the executor's own 403 text, which contains neither "Authentication
failed" nor "token appears to be invalid or expired" — that wording belongs
to `verifyEnvironmentTokens`, not to `makeRequest`. -/
theorem makeRequest_auth_message_counterexample :
    allForbiddenRun.1.error
      = some ("API returned status 403 (Forbidden) for environment 'pd'."
          ++ " This usually indicates an invalid or expired token for this environment.")
    ∧ strContains "Authentication failed" (allForbiddenRun.1.error.getD "") = false
    ∧ strContains "token appears to be invalid or expired"
        (allForbiddenRun.1.error.getD "") = false
    ∧ allForbiddenRun.2 = 3 := by
  refine ⟨by decide, by decide, by decide, by decide⟩

/-- C8 amended.  A 401/403 attempt is captured with the executor's distinct
explicit message — 403: "API returned status 403 (Forbidden) for environment
'⟨env⟩'. This usually indicates an invalid or expired token for this
environment."; 401: "API returned status 401 (Unauthorized) for environment
'⟨env⟩'. Please check your token for this environment." — naming the
environment, and the executor still continues through the remaining retry
attempts (three attempts are used when no 200 arrives; a 403 on the first
attempt does not stop a 200 on the second from succeeding). -/
theorem makeRequest_auth_retry_amended (t e b body : String)
    (o : Nat → AttemptOutcome) :
    (captureFailure t e b (AttemptOutcome.response 403 body)).error
      = some (httpStatusErrorMessage 403 e)
    ∧ (captureFailure t e b (AttemptOutcome.response 401 body)).error
      = some (httpStatusErrorMessage 401 e)
    ∧ httpStatusErrorMessage 403 "pd"
      = "API returned status 403 (Forbidden) for environment 'pd'."
          ++ " This usually indicates an invalid or expired token for this environment."
    ∧ httpStatusErrorMessage 401 "pd"
      = "API returned status 401 (Unauthorized) for environment 'pd'."
          ++ " Please check your token for this environment."
    ∧ ((∀ k, k < 3 → isHttp200 (o k) = false) → (makeRequest t e b o).2 = 3)
    ∧ (makeRequest t e b (fun k => if k = 0 then AttemptOutcome.response 403 body
          else AttemptOutcome.response 200 "ok")).2 = 2
    ∧ (makeRequest t e b (fun k => if k = 0 then AttemptOutcome.response 403 body
          else AttemptOutcome.response 200 "ok")).1.success = true := by
  refine ⟨rfl, rfl, by decide, by decide, ?_, ?_, ?_⟩
  · intro hall
    rw [makeRequest_eq]
    rw [if_neg (by simp [hall 0 (by omega)]), if_neg (by simp [hall 1 (by omega)]),
      if_neg (by simp [hall 2 (by omega)])]
  · rw [makeRequest_eq]
    simp [isHttp200, attemptStep_success_eq]
  · rw [makeRequest_eq]
    simp [isHttp200, attemptStep_success_eq, attemptStep]

/-- C6.  The value codec: an encrypted or non-encoded setting is returned
unchanged (so an encrypted value is never auto-decoded regardless of
`encoded`); `"aGVsbG8="` base64-decodes to `"hello"` and the example setting
decodes accordingly while an encrypted copy of it is left untouched; and the
decode-failure branch of lines 264-272 returns the setting unchanged — the
embedding is a total function, so no input raises. -/
theorem decodeSetting_policy :
    (∀ s : Setting, s.encrypted = true ∨ s.encoded = false → decodeSetting s = s)
    ∧ Base64Utils.decode "aGVsbG8=" = some "hello"
    ∧ decodeSetting helloSetting = { helloSetting with value := "hello" }
    ∧ decodeSetting { helloSetting with encrypted := true }
        = { helloSetting with encrypted := true }
    ∧ (∀ s : Setting, decodeSettingCore s none = s) := by
  refine ⟨?_, by decide, by decide, by decide, fun s => rfl⟩
  intro s hs
  rcases hs with h | h <;> simp [decodeSetting, h]

/-- C10.  Frame property of the value codec: `decodeSetting` preserves every
field other than `value` in every branch — in particular `encoded` and
`encrypted` are unchanged even when `value` is replaced by its decoded
form. -/
theorem decodeSetting_frame (s : Setting) :
    (decodeSetting s).setting_uuid = s.setting_uuid
    ∧ (decodeSetting s).type = s.type
    ∧ (decodeSetting s).key = s.key
    ∧ (decodeSetting s).encoded = s.encoded
    ∧ (decodeSetting s).encrypted = s.encrypted
    ∧ (decodeSetting s).owner = s.owner
    ∧ (decodeSetting s).revision = s.revision
    ∧ (decodeSetting s).deleted = s.deleted
    ∧ (decodeSetting s).created = s.created
    ∧ (decodeSetting s).modified = s.modified := by
  by_cases h : (!s.encoded || s.encrypted) = true
  · simp [decodeSetting, h]
  · simp [decodeSetting, h, decodeSettingCore, Base64Utils.decode]

/-- C3.  The pagination engine agrees with the spec's description on every
input: splitting is on the literal newline, `totalLines` is the number of
lines, the no-parameter call returns everything with `hasMore = false`, and
otherwise the slice `[start, end)` with `start = offset ?? 0`, `end = limit ?
start+limit : totalLines` and `hasMore = end < totalLines` is returned
(`specPaginate` transcribes exactly those words).  The spec's 10-line
examples are instances: `offset=2, limit=3` gives slice indices [2,5) with
`hasMore = true`; `offset=20` gives an empty slice with `hasMore = false`. -/
theorem paginateSettingValue_spec (value : String) (limit offset : Option Nat) :
    paginateSettingValue value limit offset = specPaginate value limit offset
    ∧ (paginateSettingValue value limit offset).totalLines
        = (splitLines value).length
    ∧ paginateSettingValue tenLineValue (some 3) (some 2)
        = { lines := ["l3", "l4", "l5"], totalLines := 10, hasMore := true }
    ∧ paginateSettingValue tenLineValue (some 3) (some 20)
        = { lines := [], totalLines := 10, hasMore := false } := by
  refine ⟨?_, ?_, by decide, by decide⟩
  · unfold paginateSettingValue specPaginate
    cases limit with
    | none =>
      cases offset with
      | none => simp [jsTruthy]
      | some m =>
        by_cases hm : m = 0
        · subst hm
          simp [jsTruthy, jsSlice, List.drop_zero, List.take_length, Nat.lt_irrefl]
        · simp [jsTruthy, hm]
    | some n =>
      by_cases hn : n = 0
      · subst hn
        cases offset with
        | none =>
          simp [jsTruthy, jsSlice, List.drop_zero, List.take_length, Nat.lt_irrefl]
        | some m =>
          by_cases hm : m = 0
          · subst hm
            simp [jsTruthy, jsSlice, List.drop_zero, List.take_length, Nat.lt_irrefl]
          · simp [jsTruthy, hm]
      · cases offset with
        | none => simp [jsTruthy, hn]
        | some m =>
          by_cases hm : m = 0
          · subst hm; simp [jsTruthy, hn]
          · simp [jsTruthy, hn, hm]
  · unfold paginateSettingValue
    split_ifs <;> rfl

/-- C4 counterexample.  `limit = 0` does not give an empty slice: JS
truthiness makes `0` behave as an absent limit, so with `offset = 1` the
3-line value yields `["b", "c"]`, and with no offset it yields all lines. -/
theorem paginate_limit_zero_counterexample :
    (paginateSettingValue "a\nb\nc" (some 0) (some 1)).lines = ["b", "c"]
    ∧ (paginateSettingValue "a\nb\nc" (some 0) none).lines = ["a", "b", "c"]
    ∧ ¬ (paginateSettingValue "a\nb\nc" (some 0) (some 1)).lines = [] := by
  refine ⟨by decide, by decide, by decide⟩

/-- C4 amended.  `limit = 0` is falsy in JS, so it behaves exactly as an
absent limit: all lines when `offset` is absent or 0, otherwise the slice
from `offset` to the end of the value — never a forced empty slice. -/
theorem paginate_limit_zero_amended (value : String) (offset : Option Nat) :
    paginateSettingValue value (some 0) offset
      = paginateSettingValue value none offset := by
  cases offset <;> simp [paginateSettingValue, jsTruthy]

/-- C7 counterexample.  A string consisting of the BOM variant U+FFFE
followed by an XML document is NOT parsed as XML: `trim()` does not remove
U+FFFE (only U+FEFF is JS whitespace), detection happens before any BOM
stripping, so the text falls through to the wrapped "Unknown response
format" error. -/
theorem parse_bom_detection_counterexample :
    parseAPIResponseDetect bomFFFEXml
      = ParseOutcome.failure "Failed to parse API response: Unknown response format"
    ∧ ¬ parseAPIResponseDetect bomFFFEXml = ParseOutcome.xml "<a/>"
    ∧ ¬ parseAPIResponseDetect bomFFFEXml = ParseOutcome.xml bomFFFEXml := by
  refine ⟨by decide, by decide, by decide⟩

/-- C7 amended.  Format detection runs on the *trimmed* text with no prior
BOM stripping: JS `trim()` removes U+FEFF but not U+FFFE or U+FFFF; a
leading `⟨brace⟩` or `[` selects JSON (parsing the original string), else a
leading `<?xml` or `<` selects XML, and only then are the BOM variants
stripped — from the original string; anything else fails with "Failed to
parse API response: Unknown response format".  A U+FEFF BOM followed by XML
is parsed as XML (with the BOM stripped); U+FFFE/U+FFFF prefixes are not
whitespace and lead to the unknown-format error. -/
theorem parse_format_detection_amended :
    (∀ s : String,
      (List.isPrefixOf [ '\x7b' ] (jsTrimChars s.data)
        || List.isPrefixOf [ '[' ] (jsTrimChars s.data)) = true →
      parseAPIResponseDetect s = ParseOutcome.json s)
    ∧ (∀ s : String,
        (List.isPrefixOf [ '\x7b' ] (jsTrimChars s.data)
          || List.isPrefixOf [ '[' ] (jsTrimChars s.data)) = false →
        (List.isPrefixOf "<?xml".data (jsTrimChars s.data)
          || List.isPrefixOf "<".data (jsTrimChars s.data)) = true →
        parseAPIResponseDetect s = ParseOutcome.xml (String.mk (stripXmlBom s.data)))
    ∧ (∀ s : String,
        (List.isPrefixOf [ '\x7b' ] (jsTrimChars s.data)
          || List.isPrefixOf [ '[' ] (jsTrimChars s.data)) = false →
        (List.isPrefixOf "<?xml".data (jsTrimChars s.data)
          || List.isPrefixOf "<".data (jsTrimChars s.data)) = false →
        parseAPIResponseDetect s
          = ParseOutcome.failure "Failed to parse API response: Unknown response format")
    ∧ parseAPIResponseDetect bomFEFFXml = ParseOutcome.xml "<a/>"
    ∧ jsWhitespaceChar (Char.ofNat 0xFEFF) = true
    ∧ jsWhitespaceChar (Char.ofNat 0xFFFE) = false
    ∧ jsWhitespaceChar (Char.ofNat 0xFFFF) = false := by
  refine ⟨?_, ?_, ?_, by decide, by decide, by decide, by decide⟩
  · intro s h
    simp [parseAPIResponseDetect, h]
  · intro s h1 h2
    simp [parseAPIResponseDetect, h1, h2]
  · intro s h1 h2
    simp [parseAPIResponseDetect, h1, h2]

/-- C2 (code bug).  The claim's own example behaves as stated — searching
`"a\nfoo\nb\nfoo\nc"` for `"foo"` yields 2 matches at line numbers 2 and
4 — but the universal statement is false: because the `g`-flagged regex's
`lastIndex` survives from one `test` call to the next, the value
`"foo\nfoo"` yields only 1 match (line 1), although line 2 also contains
the term. -/
theorem search_consecutive_lines_bug :
    (searchInSettingValue "a\nfoo\nb\nfoo\nc" "foo").totalMatches = 2
    ∧ (searchInSettingValue "a\nfoo\nb\nfoo\nc" "foo").matchList.map
        SearchMatch.lineNumber = [2, 4]
    ∧ splitLines "foo\nfoo" = ["foo", "foo"]
    ∧ containsCI "foo".data "foo".data = true
    ∧ (searchInSettingValue "foo\nfoo" "foo").totalMatches = 1
    ∧ (searchInSettingValue "foo\nfoo" "foo").matchList.map
        SearchMatch.lineNumber = [1] := by
  refine ⟨by decide, by decide, by decide, by decide, by decide, by decide⟩

/-- C9 (code bug).  Escaping makes the pattern literal: the compiled tokens
of the term `"a.b("` are all literals, the unescaped reading (with `.` as a
wildcard) would match `"axb("` but the search does not — matching is never
pattern matching.  Yet "matches exactly those lines that contain the literal
sequence" fails: in `"xa.b(\na.b("` the second line contains the literal
term but is missed because the regex's `lastIndex` carried over from the
first line's match. -/
theorem search_literal_matching_bug :
    searchTokens "a.b("
      = [RegexTok.lit 'a', RegexTok.lit '.', RegexTok.lit 'b', RegexTok.lit '(']
    ∧ parsePattern "a.b(".data
      = [RegexTok.lit 'a', RegexTok.anyChar, RegexTok.lit 'b', RegexTok.lit '(']
    ∧ matchToksAtCI (parsePattern "a.b(".data) "axb(".data = true
    ∧ (searchInSettingValue "axb(" "a.b(").totalMatches = 0
    ∧ containsCI "a.b(".data "a.b(".data = true
    ∧ (searchInSettingValue "xa.b(\na.b(" "a.b(").totalMatches = 1
    ∧ (searchInSettingValue "xa.b(\na.b(" "a.b(").matchList.map
        SearchMatch.lineNumber = [1] := by
  refine ⟨by decide, by decide, by decide, by decide, by decide, by decide, by decide⟩
